import Mathlib

/-!
# IpvMulti2 character: replicated health / ammo / ragdoll state

A shallow embedding of `Source/IpvMulti2/IpvMulti2Character.cpp`.  Every member function of
`AIpvMulti2Character` that touches the replicated combat state becomes a pure function on a
`Character` record.  `float` values are exact rationals, `int32` values are integers (the code
performs no integer arithmetic on them).  Engine calls are recorded as writes to explicit
component fields; the physics simulation itself is outside the model.
-/

set_option linter.unusedVariables false

namespace IpvMulti2

/-! ## Engine enumerations and math helpers -/

/-- Network role of an instance, the value of `GetLocalRole()`. -/
inductive ENetRole
  | ROLE_None
  | ROLE_SimulatedProxy
  | ROLE_AutonomousProxy
  | ROLE_Authority
  deriving DecidableEq, Repr

/-- Collision mode of a primitive component. -/
inductive ECollisionEnabled
  | NoCollision
  | QueryOnly
  | PhysicsOnly
  | QueryAndPhysics
  deriving DecidableEq, Repr

/-- Response of a component to one collision channel. -/
inductive ECollisionResponse
  | ECR_Ignore
  | ECR_Overlap
  | ECR_Block
  deriving DecidableEq, Repr

/-- The engine has thirty-two collision channels: eight named ones, six engine trace channels and
eighteen game trace channels. -/
inductive ECollisionChannel
  | ECC_WorldStatic
  | ECC_WorldDynamic
  | ECC_Pawn
  | ECC_Visibility
  | ECC_Camera
  | ECC_PhysicsBody
  | ECC_Vehicle
  | ECC_Destructible
  | ECC_EngineTraceChannel (i : Fin 6)
  | ECC_GameTraceChannel (i : Fin 18)
  deriving DecidableEq, Repr

/-- Movement mode of the character movement component. -/
inductive EMovementMode
  | MOVE_None
  | MOVE_Walking
  | MOVE_NavWalking
  | MOVE_Falling
  | MOVE_Swimming
  | MOVE_Flying
  | MOVE_Custom
  deriving DecidableEq, Repr

/-- Three-component vector. -/
structure FVector where
  X : ℚ
  Y : ℚ
  Z : ℚ
  deriving DecidableEq

/-- The constant `FVector::ZeroVector`. -/
def FVector.ZeroVector : FVector := ⟨0, 0, 0⟩

/-- Rotation given as pitch, yaw and roll in degrees. -/
structure FRotator where
  Pitch : ℚ
  Yaw : ℚ
  Roll : ℚ
  deriving DecidableEq

/-- Modelled from the spec: the engine's `FMath::Max` is not part of the source tree; it returns
the larger of its two arguments, `(B < A) ? A : B`. -/
def FMath.Max (A B : ℚ) : ℚ := if B < A then A else B

/-- Modelled from the spec: the engine's `FMath::Min` is not part of the source tree; it returns
the smaller of its two arguments, `(A < B) ? A : B`. -/
def FMath.Min (A B : ℚ) : ℚ := if A < B then A else B

/-- Modelled from the spec: the engine's `FMath::Clamp` is not part of the source tree; the spec
says it "clamps to `[0, maxHealth]`", which the engine computes as
`Max(Min(X, MaxValue), MinValue)`. -/
def FMath.Clamp (X MinValue MaxValue : ℚ) : ℚ := FMath.Max (FMath.Min X MaxValue) MinValue

/-! ## Components -/

/-- The collision capsule (`GetCapsuleComponent()`): the last collision mode and channel responses
requested for it, and its size. -/
structure UCapsuleComponent where
  CollisionEnabled : ECollisionEnabled
  ResponseToChannels : ECollisionChannel → ECollisionResponse
  CapsuleRadius : ℚ
  CapsuleHalfHeight : ℚ
  ShapeScale : ℚ

/-- The skeletal mesh (`GetMesh()`): the last collision and physics settings requested for it. -/
structure USkeletalMeshComponent where
  CollisionEnabled : ECollisionEnabled
  ResponseToChannels : ECollisionChannel → ECollisionResponse
  bSimulatePhysics : Bool
  bAllBodiesSimulatePhysics : Bool
  bRigidBodiesAwake : Bool
  bAttachedToCapsule : Bool
  RelativeLocation : FVector
  RelativeRotation : FRotator
  PhysicsLinearVelocity : FVector
  PhysicsAngularVelocity : FVector

/-- The character movement component (`GetCharacterMovement()`). -/
structure UCharacterMovementComponent where
  MovementMode : EMovementMode
  Velocity : FVector
  PendingForce : FVector

/-- Modelled from the spec: engine setter, "set capsule collision mode". -/
def UCapsuleComponent.SetCollisionEnabled (c : UCapsuleComponent) (e : ECollisionEnabled) :
    UCapsuleComponent :=
  { c with CollisionEnabled := e }

/-- Modelled from the spec: engine setter, "set all channel responses". -/
def UCapsuleComponent.SetCollisionResponseToAllChannels (c : UCapsuleComponent)
    (r : ECollisionResponse) : UCapsuleComponent :=
  { c with ResponseToChannels := fun _ => r }

/-- Modelled from the spec: engine call that sets the capsule radius and half height. -/
def UCapsuleComponent.InitCapsuleSize (c : UCapsuleComponent) (InRadius InHalfHeight : ℚ) :
    UCapsuleComponent :=
  { c with CapsuleRadius := InRadius, CapsuleHalfHeight := InHalfHeight }

/-- Modelled from the spec: engine getter, the capsule half height scaled by the shape scale. -/
def UCapsuleComponent.GetScaledCapsuleHalfHeight (c : UCapsuleComponent) : ℚ :=
  c.CapsuleHalfHeight * c.ShapeScale

/-- Modelled from the spec: engine setter, mesh collision mode. -/
def USkeletalMeshComponent.SetCollisionEnabled (m : USkeletalMeshComponent)
    (e : ECollisionEnabled) : USkeletalMeshComponent :=
  { m with CollisionEnabled := e }

/-- Modelled from the spec: engine setter, "set all channel responses". -/
def USkeletalMeshComponent.SetCollisionResponseToAllChannels (m : USkeletalMeshComponent)
    (r : ECollisionResponse) : USkeletalMeshComponent :=
  { m with ResponseToChannels := fun _ => r }

/-- Modelled from the spec: engine setter, response to one channel, the others kept. -/
def USkeletalMeshComponent.SetCollisionResponseToChannel (m : USkeletalMeshComponent)
    (ch : ECollisionChannel) (r : ECollisionResponse) : USkeletalMeshComponent :=
  { m with ResponseToChannels := fun c => if c = ch then r else m.ResponseToChannels c }

/-- Modelled from the spec: engine setter, "enable / disable physics simulation". -/
def USkeletalMeshComponent.SetSimulatePhysics (m : USkeletalMeshComponent) (b : Bool) :
    USkeletalMeshComponent :=
  { m with bSimulatePhysics := b }

/-- Modelled from the spec: engine setter, physics simulation "on all bodies". -/
def USkeletalMeshComponent.SetAllBodiesSimulatePhysics (m : USkeletalMeshComponent) (b : Bool) :
    USkeletalMeshComponent :=
  { m with bAllBodiesSimulatePhysics := b }

/-- Modelled from the spec: engine call, "wake all bodies". -/
def USkeletalMeshComponent.WakeAllRigidBodies (m : USkeletalMeshComponent) :
    USkeletalMeshComponent :=
  { m with bRigidBodiesAwake := true }

/-- Modelled from the spec: engine call, "put all bodies to sleep". -/
def USkeletalMeshComponent.PutAllRigidBodiesToSleep (m : USkeletalMeshComponent) :
    USkeletalMeshComponent :=
  { m with bRigidBodiesAwake := false }

/-- Modelled from the spec: engine call, "re-attach the visual mesh to the controller capsule". -/
def USkeletalMeshComponent.AttachToComponent (m : USkeletalMeshComponent) :
    USkeletalMeshComponent :=
  { m with bAttachedToCapsule := true }

/-- Modelled from the spec: engine setter of the mesh offset relative to its parent. -/
def USkeletalMeshComponent.SetRelativeLocation (m : USkeletalMeshComponent) (v : FVector) :
    USkeletalMeshComponent :=
  { m with RelativeLocation := v }

/-- Modelled from the spec: engine setter of the mesh rotation relative to its parent. -/
def USkeletalMeshComponent.SetRelativeRotation (m : USkeletalMeshComponent) (r : FRotator) :
    USkeletalMeshComponent :=
  { m with RelativeRotation := r }

/-- Modelled from the spec: engine setter, linear velocity of the simulated bodies. -/
def USkeletalMeshComponent.SetPhysicsLinearVelocity (m : USkeletalMeshComponent) (v : FVector) :
    USkeletalMeshComponent :=
  { m with PhysicsLinearVelocity := v }

/-- Modelled from the spec: engine setter, angular velocity of the simulated bodies. -/
def USkeletalMeshComponent.SetPhysicsAngularVelocityInDegrees (m : USkeletalMeshComponent)
    (v : FVector) : USkeletalMeshComponent :=
  { m with PhysicsAngularVelocity := v }

/-- Modelled from the spec: engine call, "stop ... character-controller movement". -/
def UCharacterMovementComponent.StopMovementImmediately (c : UCharacterMovementComponent) :
    UCharacterMovementComponent :=
  { c with Velocity := FVector.ZeroVector }

/-- Modelled from the spec: engine setter of the movement mode. -/
def UCharacterMovementComponent.SetMovementMode (c : UCharacterMovementComponent)
    (m : EMovementMode) : UCharacterMovementComponent :=
  { c with MovementMode := m }

/-- Modelled from the spec: engine call, "disable character-controller movement", which the
engine performs as `SetMovementMode(MOVE_None)`. -/
def UCharacterMovementComponent.DisableMovement (c : UCharacterMovementComponent) :
    UCharacterMovementComponent :=
  c.SetMovementMode EMovementMode.MOVE_None

/-- Modelled from the spec: engine call, "clears accumulated physics forces". -/
def UCharacterMovementComponent.ClearAccumulatedForces (c : UCharacterMovementComponent) :
    UCharacterMovementComponent :=
  { c with PendingForce := FVector.ZeroVector }

/-! ## The character record -/

/-- The three on-screen debug messages `OnHealthUpdate_Implementation` prints. -/
inductive DebugMessage
  | YouNowHaveHealth (health : ℚ)
  | YouHaveBeenKilled
  | ActorNowHasHealth (health : ℚ)
  deriving DecidableEq

/-- The two `UFUNCTION(Server, Reliable)` remote calls of the class. -/
inductive RemoteCall
  | ServerStartRagdoll
  | ServerRespawn
  deriving DecidableEq, Repr

/-- One instance of `AIpvMulti2Character` on one process.  `LocalRole` is `GetLocalRole()`,
`bLocallyControlled` is `IsLocallyControlled()`.  The capsule is the root component, which the
constructor and `OnRep_IsRagdoll` dereference unguarded, so it is always present; the mesh and the
movement component are optional sub-objects, and the code guards every use of them after
construction.  `Messages`, `SentRemoteCalls`, `AmmoUpdatedEvents` and `ForcedNetUpdates` log what
the instance sent to the notification sink, the remote-call channel, the `OnAmmoUpdated` hook and
`ForceNetUpdate`. -/
structure Character where
  LocalRole : ENetRole
  bLocallyControlled : Bool
  MaxHealth : ℚ
  CurrentHealth : ℚ
  MaxAmmo : Int
  CurrentAmmo : Int
  bIsRagdoll : Bool
  bReplicates : Bool
  bInputEnabled : Bool
  Capsule : UCapsuleComponent
  Mesh : Option USkeletalMeshComponent
  Movement : Option UCharacterMovementComponent
  Messages : List DebugMessage
  SentRemoteCalls : List RemoteCall
  AmmoUpdatedEvents : Nat
  ForcedNetUpdates : Nat

/-- The constructor, lines 27-84, applied to the record the engine base class built: it sizes the
capsule and initialises health and ammunition.  Camera and movement tuning are outside the
model. -/
def AIpvMulti2Character (base : Character) : Character :=
  let s := { base with Capsule := base.Capsule.InitCapsuleSize 42 96 }
  let s := { s with MaxHealth := 100 }
  let s := { s with CurrentHealth := s.MaxHealth }
  let s := { s with MaxAmmo := 5 }
  { s with CurrentAmmo := s.MaxAmmo }

/-- Modelled from the spec: the notification sink `GEngine->AddOnScreenDebugMessage`, "a
fire-and-forget show-transient-message call"; the message is appended to the log. -/
def AddOnScreenDebugMessage (msg : DebugMessage) (s : Character) : Character :=
  { s with Messages := s.Messages ++ [msg] }

/-- Modelled from the spec: `OnAmmoUpdated` is a Blueprint-implementable event without a body in
the C++ sources; the spec describes it as a "replicated hook" with nothing "beyond UI
notification".  The call is counted. -/
def OnAmmoUpdated (s : Character) : Character :=
  { s with AmmoUpdatedEvents := s.AmmoUpdatedEvents + 1 }

/-- Modelled from the spec: the engine's `APawn::DisableInput`, "disable input delivery"; with a
null controller argument it clears the pawn's input flag. -/
def DisableInput (s : Character) : Character :=
  { s with bInputEnabled := false }

/-- Modelled from the spec: the engine's `APawn::EnableInput`, "re-enables input"; called with the
pawn's own controller or null it sets the pawn's input flag. -/
def EnableInput (s : Character) : Character :=
  { s with bInputEnabled := true }

/-- Modelled from the spec: the engine's `ForceNetUpdate`, "forces an out-of-band replication
push"; the call is counted. -/
def ForceNetUpdate (s : Character) : Character :=
  { s with ForcedNetUpdates := s.ForcedNetUpdates + 1 }

/-! ## Member functions, in dependency order -/

/-- Translation of `HideUI`, lines 320-323: an early return and nothing after it. -/
def HideUI (s : Character) : Character :=
  if !s.bLocallyControlled then s else s

/-- Translation of `DisableCharacterCollision`, lines 252-280. -/
def DisableCharacterCollision (s : Character) : Character :=
  let s := { s with bReplicates := true }
  -- Disable capsule collision
  let CapsuleComp := s.Capsule
  let CapsuleComp := CapsuleComp.SetCollisionEnabled ECollisionEnabled.NoCollision
  let CapsuleComp := CapsuleComp.SetCollisionResponseToAllChannels ECollisionResponse.ECR_Ignore
  let s := { s with Capsule := CapsuleComp }
  -- Disable mesh collision (except for physics)
  let s :=
    match s.Mesh with
    | some MeshComp =>
      let MeshComp := MeshComp.SetCollisionResponseToAllChannels ECollisionResponse.ECR_Ignore
      let MeshComp := MeshComp.SetCollisionResponseToChannel ECollisionChannel.ECC_WorldStatic
        ECollisionResponse.ECR_Block
      let MeshComp := MeshComp.SetCollisionResponseToChannel ECollisionChannel.ECC_WorldDynamic
        ECollisionResponse.ECR_Block
      let MeshComp := MeshComp.SetCollisionResponseToChannel ECollisionChannel.ECC_PhysicsBody
        ECollisionResponse.ECR_Block
      { s with Mesh := some MeshComp }
    | none => s
  -- Disable character movement
  match s.Movement with
  | some MovementComp =>
    { s with Movement := some MovementComp.StopMovementImmediately.DisableMovement }
  | none => s

/-- Translation of `OnRep_IsRagdoll`, lines 287-318. -/
def OnRep_IsRagdoll (s : Character) : Character :=
  match s.Mesh with
  | none => s
  | some MeshComp =>
    if s.bIsRagdoll then
      -- Enable physics simulation on the mesh
      let MeshComp := MeshComp.SetCollisionEnabled ECollisionEnabled.QueryAndPhysics
      let MeshComp := MeshComp.SetSimulatePhysics true
      let MeshComp := MeshComp.SetAllBodiesSimulatePhysics true
      let MeshComp := MeshComp.WakeAllRigidBodies
      DisableCharacterCollision { s with Mesh := some MeshComp }
    else
      -- Disable physics simulation
      let MeshComp := MeshComp.SetSimulatePhysics false
      let MeshComp := MeshComp.SetAllBodiesSimulatePhysics false
      let MeshComp := MeshComp.PutAllRigidBodiesToSleep
      -- Reset mesh position relative to capsule
      let MeshComp := MeshComp.AttachToComponent
      let MeshComp := MeshComp.SetRelativeLocation ⟨0, 0, -s.Capsule.GetScaledCapsuleHalfHeight⟩
      let MeshComp := MeshComp.SetRelativeRotation ⟨0, -90, 0⟩
      -- Force physics state update
      let MeshComp := MeshComp.SetPhysicsLinearVelocity FVector.ZeroVector
      let MeshComp := MeshComp.SetPhysicsAngularVelocityInDegrees FVector.ZeroVector
      { s with Mesh := some MeshComp }

/-- Translation of `ServerStartRagdoll_Implementation`, lines 282-285: the body the authority runs
when the remote call is delivered. -/
def ServerStartRagdoll_Implementation (s : Character) : Character :=
  { s with bIsRagdoll := true }

/-- Modelled from the spec: the generated thunk of `UFUNCTION(Server, Reliable) ServerStartRagdoll`
is not in the source tree.  It is the "reliable one-way remote call to authority": on the
authority the body runs in place, elsewhere the call is put on the remote-call channel. -/
def ServerStartRagdoll (s : Character) : Character :=
  if s.LocalRole = ENetRole.ROLE_Authority then ServerStartRagdoll_Implementation s
  else { s with SentRemoteCalls := s.SentRemoteCalls ++ [RemoteCall.ServerStartRagdoll] }

/-- Translation of `StartRagdoll`, lines 238-250. -/
def StartRagdoll (s : Character) : Character :=
  if s.LocalRole = ENetRole.ROLE_Authority then
    OnRep_IsRagdoll { s with bIsRagdoll := true }
  else
    ServerStartRagdoll s

/-- Translation of `OnHealthUpdate_Implementation`, lines 169-200. -/
def OnHealthUpdate_Implementation (s : Character) : Character :=
  let s := { s with bReplicates := true }
  -- Client-specific functionality
  let s :=
    if s.bLocallyControlled then
      let s := AddOnScreenDebugMessage (DebugMessage.YouNowHaveHealth s.CurrentHealth) s
      if s.CurrentHealth ≤ 0 then
        let s := AddOnScreenDebugMessage DebugMessage.YouHaveBeenKilled s
        let s := StartRagdoll s
        HideUI s
      else s
    else s
  -- Server-specific functionality
  if s.LocalRole = ENetRole.ROLE_Authority then
    let s := AddOnScreenDebugMessage (DebugMessage.ActorNowHasHealth s.CurrentHealth) s
    if s.CurrentHealth ≤ 0 then
      let s := DisableInput s
      DisableCharacterCollision s
    else s
  else s

/-- The native event `OnHealthUpdate` dispatches to its C++ implementation. -/
def OnHealthUpdate (s : Character) : Character := OnHealthUpdate_Implementation s

/-- Translation of `SetCurrentHealth`, lines 133-140. -/
def SetCurrentHealth (healthValue : ℚ) (s : Character) : Character :=
  if s.LocalRole = ENetRole.ROLE_Authority then
    let s := { s with CurrentHealth := FMath.Clamp healthValue 0 s.MaxHealth }
    OnHealthUpdate s
  else s

/-- Translation of `TakeDamage`, lines 142-148: the returned `float` paired with the state after
the call.  The damage event, instigator and causer arguments are not used by the body. -/
def TakeDamage (DamageTaken : ℚ) (s : Character) : ℚ × Character :=
  let damageApplied := s.CurrentHealth - DamageTaken
  let s := SetCurrentHealth damageApplied s
  (damageApplied, s)

/-- Translation of `OnRep_CurrentHealth`, lines 150-153. -/
def OnRep_CurrentHealth (s : Character) : Character := OnHealthUpdate s

/-- Translation of `OnRep_CurrentAmmo`, lines 155-158. -/
def OnRep_CurrentAmmo (s : Character) : Character := OnAmmoUpdated s

/-- Translation of `AddAmmo`, lines 160-167. -/
def AddAmmo (_Amount : Int) (s : Character) : Character :=
  if s.LocalRole = ENetRole.ROLE_Authority then
    let s := { s with CurrentAmmo := s.MaxAmmo }
    OnAmmoUpdated s
  else s

/-- Translation of `ServerRespawn_Implementation`, lines 428-476.  `SetActorLocation` is called
with the actor's own location and changes nothing. -/
def ServerRespawn_Implementation (s : Character) : Character :=
  -- Reset health
  let s := { s with CurrentHealth := s.MaxHealth }
  let s := OnHealthUpdate s
  -- Reset ammo
  let s := { s with CurrentAmmo := s.MaxAmmo }
  let s := OnAmmoUpdated s
  -- Reset ragdoll state FIRST
  let s := { s with bIsRagdoll := false }
  let s := OnRep_IsRagdoll s
  -- Reset physics state before enabling collision
  let s :=
    match s.Mesh with
    | some MeshComp =>
      let MeshComp := MeshComp.SetSimulatePhysics false
      let MeshComp := MeshComp.SetAllBodiesSimulatePhysics false
      let MeshComp := MeshComp.PutAllRigidBodiesToSleep
      { s with Mesh := some MeshComp }
    | none => s
  -- Enable input and movement
  let s := EnableInput s
  -- Re-enable collision
  let CapsuleComp := s.Capsule
  let CapsuleComp := CapsuleComp.SetCollisionEnabled ECollisionEnabled.QueryAndPhysics
  let CapsuleComp := CapsuleComp.SetCollisionResponseToAllChannels ECollisionResponse.ECR_Block
  let s := { s with Capsule := CapsuleComp }
  -- Re-enable character movement
  let s :=
    match s.Movement with
    | some MovementComp =>
      let MovementComp := MovementComp.SetMovementMode EMovementMode.MOVE_Walking
      let MovementComp := MovementComp.StopMovementImmediately
      let MovementComp := MovementComp.ClearAccumulatedForces
      { s with Movement := some MovementComp }
    | none => s
  -- Force network update
  ForceNetUpdate s

/-! ## Delivery of replicated fields and example instances -/

/-- Modelled from the spec: the replication channel is engine code.  `DOREPLIFETIME` registers
`CurrentHealth` with `ReplicatedUsing = OnRep_CurrentHealth`, so delivery of a new value on an
observer stores it and runs the callback. -/
def ReplicateCurrentHealth (v : ℚ) (s : Character) : Character :=
  OnRep_CurrentHealth { s with CurrentHealth := v }

/-- Modelled from the spec: the replication channel is engine code.  `DOREPLIFETIME` registers
`bIsRagdoll` with `ReplicatedUsing = OnRep_IsRagdoll`, so delivery of a new value on an observer
stores it and runs the callback. -/
def ReplicateIsRagdoll (v : Bool) (s : Character) : Character :=
  OnRep_IsRagdoll { s with bIsRagdoll := v }

/-- A capsule as the engine base class leaves it: blocking collision, unit scale. -/
def defaultCapsule : UCapsuleComponent :=
  { CollisionEnabled := ECollisionEnabled.QueryAndPhysics
    ResponseToChannels := fun _ => ECollisionResponse.ECR_Block
    CapsuleRadius := 34
    CapsuleHalfHeight := 88
    ShapeScale := 1 }

/-- A mesh that is not simulating physics and sits at the template offset under the capsule. -/
def defaultMesh : USkeletalMeshComponent :=
  { CollisionEnabled := ECollisionEnabled.QueryOnly
    ResponseToChannels := fun _ => ECollisionResponse.ECR_Block
    bSimulatePhysics := false
    bAllBodiesSimulatePhysics := false
    bRigidBodiesAwake := false
    bAttachedToCapsule := true
    RelativeLocation := ⟨0, 0, -96⟩
    RelativeRotation := ⟨0, -90, 0⟩
    PhysicsLinearVelocity := FVector.ZeroVector
    PhysicsAngularVelocity := FVector.ZeroVector }

/-- A walking movement component at rest. -/
def defaultMovement : UCharacterMovementComponent :=
  { MovementMode := EMovementMode.MOVE_Walking
    Velocity := FVector.ZeroVector
    PendingForce := FVector.ZeroVector }

/-- A freshly constructed character with the given role and local-control flag: all three
components present, nothing logged, fields as the constructor sets them. -/
def spawnOn (role : ENetRole) (locallyControlled : Bool) : Character :=
  AIpvMulti2Character
    { LocalRole := role
      bLocallyControlled := locallyControlled
      MaxHealth := 0
      CurrentHealth := 0
      MaxAmmo := 0
      CurrentAmmo := 0
      bIsRagdoll := false
      bReplicates := false
      bInputEnabled := true
      Capsule := defaultCapsule
      Mesh := some defaultMesh
      Movement := some defaultMovement
      Messages := []
      SentRemoteCalls := []
      AmmoUpdatedEvents := 0
      ForcedNetUpdates := 0 }

/-! ## Replicated fields, invariant and reachability -/

/-- The three replicated fields of an instance: health, ammunition and the ragdoll flag. -/
def ReplicatedFields (s : Character) : ℚ × Int × Bool :=
  (s.CurrentHealth, s.CurrentAmmo, s.bIsRagdoll)

/-- The range invariant of the data model: health within `[0, MaxHealth]` and ammunition within
`[0, MaxAmmo]`. -/
def RangeInvariant (s : Character) : Prop :=
  0 ≤ s.CurrentHealth ∧ s.CurrentHealth ≤ s.MaxHealth ∧
  0 ≤ s.CurrentAmmo ∧ s.CurrentAmmo ≤ s.MaxAmmo

instance (s : Character) : Decidable (RangeInvariant s) := by
  unfold RangeInvariant
  infer_instance

/-- The operations that run on the authority: the four callable member functions and the bodies
of the two server remote calls. -/
inductive AuthorityOp
  | SetCurrentHealth (healthValue : ℚ)
  | TakeDamage (DamageTaken : ℚ)
  | AddAmmo (Amount : Int)
  | StartRagdoll
  | ServerStartRagdoll
  | ServerRespawn

/-- The state after running one authority operation. -/
def AuthorityOp.run : AuthorityOp → Character → Character
  | AuthorityOp.SetCurrentHealth x, s => IpvMulti2.SetCurrentHealth x s
  | AuthorityOp.TakeDamage d, s => (IpvMulti2.TakeDamage d s).2
  | AuthorityOp.AddAmmo n, s => IpvMulti2.AddAmmo n s
  | AuthorityOp.StartRagdoll, s => IpvMulti2.StartRagdoll s
  | AuthorityOp.ServerStartRagdoll, s => ServerStartRagdoll_Implementation s
  | AuthorityOp.ServerRespawn, s => ServerRespawn_Implementation s

/-- The states the authority reaches from a spawn state by running operations. -/
inductive Reachable (spawn : Character) : Character → Prop
  | start : Reachable spawn spawn
  | step (op : AuthorityOp) (s : Character) : Reachable spawn s → Reachable spawn (op.run s)

/-- An authority instance at ten health out of a hundred, reached from spawn by ninety damage. -/
def woundedAuthority (locallyControlled : Bool) : Character :=
  (TakeDamage 90 (spawnOn ENetRole.ROLE_Authority locallyControlled)).2

/-- An observer at ten health out of a hundred, reached from spawn by a replicated update. -/
def woundedObserver (role : ENetRole) (locallyControlled : Bool) : Character :=
  ReplicateCurrentHealth 10 (spawnOn role locallyControlled)

/-- A dead authority instance out of ammunition: the wounded authority after fifteen more damage,
with its ammunition spent. -/
def deadAuthority (locallyControlled : Bool) : Character :=
  { (TakeDamage 15 (woundedAuthority locallyControlled)).2 with CurrentAmmo := 0 }

/-- Modelled from the spec: the remote procedure channel is engine code.  Delivery of a reliable
one-way call to the authority runs the matching `_Implementation` body there. -/
def DeliverRemoteCall : RemoteCall → Character → Character
  | RemoteCall.ServerStartRagdoll, s => ServerStartRagdoll_Implementation s
  | RemoteCall.ServerRespawn, s => ServerRespawn_Implementation s

/-- The explicit physics and collision state of an instance: capsule collision mode and channel
responses; mesh collision mode, channel responses and physics-simulation flag; movement mode. -/
def PhysicsCollisionState (s : Character) :
    (ECollisionEnabled × (ECollisionChannel → ECollisionResponse)) ×
    Option (ECollisionEnabled × (ECollisionChannel → ECollisionResponse) × Bool) ×
    Option EMovementMode :=
  ((s.Capsule.CollisionEnabled, s.Capsule.ResponseToChannels),
   s.Mesh.map (fun m => (m.CollisionEnabled, m.ResponseToChannels, m.bSimulatePhysics)),
   s.Movement.map (fun c => c.MovementMode))

/-- An observer that has just stored a replicated `bIsRagdoll = true` and not yet run the
callback. -/
def ragdollPending (role : ENetRole) (locallyControlled : Bool) : Character :=
  { spawnOn role locallyControlled with bIsRagdoll := true }

/-- The input, collision and physics state of an instance: the pawn input flag together with the
explicit physics and collision state. -/
def InputCollisionPhysicsState (s : Character) :=
  (s.bInputEnabled, PhysicsCollisionState s)

/-- An authority instance killed from spawn by a hundred damage: the state in which the
controlling client's ragdoll request reaches it. -/
def killedAuthority (locallyControlled : Bool) : Character :=
  (TakeDamage 100 (spawnOn ENetRole.ROLE_Authority locallyControlled)).2

/-! ## Frame lemmas -/

theorem FMath_Clamp_of_lt (x lo hi : ℚ) (h : x < lo) : FMath.Clamp x lo hi = lo := by
  unfold FMath.Clamp FMath.Max FMath.Min
  split_ifs <;> linarith

theorem FMath_Clamp_of_le (x lo hi : ℚ) (h : x ≤ lo) : FMath.Clamp x lo hi = lo := by
  unfold FMath.Clamp FMath.Max FMath.Min
  split_ifs <;> linarith

theorem FMath_Clamp_of_gt (x lo hi : ℚ) (hlh : lo ≤ hi) (h : hi < x) :
    FMath.Clamp x lo hi = hi := by
  unfold FMath.Clamp FMath.Max FMath.Min
  split_ifs <;> linarith

theorem FMath_Clamp_of_mem (x lo hi : ℚ) (h1 : lo ≤ x) (h2 : x ≤ hi) :
    FMath.Clamp x lo hi = x := by
  unfold FMath.Clamp FMath.Max FMath.Min
  split_ifs <;> linarith

theorem FMath_Clamp_bounds (x lo hi : ℚ) (hlh : lo ≤ hi) :
    lo ≤ FMath.Clamp x lo hi ∧ FMath.Clamp x lo hi ≤ hi := by
  unfold FMath.Clamp FMath.Max FMath.Min
  split_ifs <;> constructor <;> linarith

/-- The fields `DisableCharacterCollision` does not write. -/
theorem DisableCharacterCollision_frame (s : Character) :
    (DisableCharacterCollision s).LocalRole = s.LocalRole ∧
    (DisableCharacterCollision s).bLocallyControlled = s.bLocallyControlled ∧
    (DisableCharacterCollision s).MaxHealth = s.MaxHealth ∧
    (DisableCharacterCollision s).CurrentHealth = s.CurrentHealth ∧
    (DisableCharacterCollision s).MaxAmmo = s.MaxAmmo ∧
    (DisableCharacterCollision s).CurrentAmmo = s.CurrentAmmo ∧
    (DisableCharacterCollision s).bIsRagdoll = s.bIsRagdoll ∧
    (DisableCharacterCollision s).bInputEnabled = s.bInputEnabled ∧
    (DisableCharacterCollision s).Messages = s.Messages ∧
    (DisableCharacterCollision s).SentRemoteCalls = s.SentRemoteCalls ∧
    (DisableCharacterCollision s).AmmoUpdatedEvents = s.AmmoUpdatedEvents ∧
    (DisableCharacterCollision s).ForcedNetUpdates = s.ForcedNetUpdates := by
  obtain ⟨_, _, _, _, _, _, _, _, _, _, mesh, mov, _, _, _, _⟩ := s
  cases mesh <;> cases mov <;> simp [DisableCharacterCollision]

/-- The fields `OnRep_IsRagdoll` does not write. -/
theorem OnRep_IsRagdoll_frame (s : Character) :
    (OnRep_IsRagdoll s).LocalRole = s.LocalRole ∧
    (OnRep_IsRagdoll s).bLocallyControlled = s.bLocallyControlled ∧
    (OnRep_IsRagdoll s).MaxHealth = s.MaxHealth ∧
    (OnRep_IsRagdoll s).CurrentHealth = s.CurrentHealth ∧
    (OnRep_IsRagdoll s).MaxAmmo = s.MaxAmmo ∧
    (OnRep_IsRagdoll s).CurrentAmmo = s.CurrentAmmo ∧
    (OnRep_IsRagdoll s).bIsRagdoll = s.bIsRagdoll ∧
    (OnRep_IsRagdoll s).bInputEnabled = s.bInputEnabled ∧
    (OnRep_IsRagdoll s).Messages = s.Messages ∧
    (OnRep_IsRagdoll s).SentRemoteCalls = s.SentRemoteCalls ∧
    (OnRep_IsRagdoll s).AmmoUpdatedEvents = s.AmmoUpdatedEvents ∧
    (OnRep_IsRagdoll s).ForcedNetUpdates = s.ForcedNetUpdates := by
  obtain ⟨_, _, _, _, _, _, rag, _, _, _, mesh, mov, _, _, _, _⟩ := s
  cases mesh <;> cases mov <;> cases rag <;> simp [OnRep_IsRagdoll, DisableCharacterCollision]

/-- The fields `StartRagdoll` does not write. -/
theorem StartRagdoll_frame (s : Character) :
    (StartRagdoll s).LocalRole = s.LocalRole ∧
    (StartRagdoll s).bLocallyControlled = s.bLocallyControlled ∧
    (StartRagdoll s).MaxHealth = s.MaxHealth ∧
    (StartRagdoll s).CurrentHealth = s.CurrentHealth ∧
    (StartRagdoll s).MaxAmmo = s.MaxAmmo ∧
    (StartRagdoll s).CurrentAmmo = s.CurrentAmmo ∧
    (StartRagdoll s).bInputEnabled = s.bInputEnabled ∧
    (StartRagdoll s).Messages = s.Messages ∧
    (StartRagdoll s).AmmoUpdatedEvents = s.AmmoUpdatedEvents ∧
    (StartRagdoll s).ForcedNetUpdates = s.ForcedNetUpdates := by
  unfold StartRagdoll ServerStartRagdoll
  split_ifs with h
  · obtain ⟨h1, h2, h3, h4, h5, h6, _, h8, h9, _, h11, h12⟩ :=
      OnRep_IsRagdoll_frame { s with bIsRagdoll := true }
    exact ⟨h1, h2, h3, h4, h5, h6, h8, h9, h11, h12⟩
  · simp

/-- On the authority `StartRagdoll` sets the flag; elsewhere it leaves the flag alone. -/
theorem StartRagdoll_bIsRagdoll (s : Character) :
    (StartRagdoll s).bIsRagdoll =
      if s.LocalRole = ENetRole.ROLE_Authority then true else s.bIsRagdoll := by
  unfold StartRagdoll ServerStartRagdoll
  split_ifs with h
  · exact (OnRep_IsRagdoll_frame { s with bIsRagdoll := true }).2.2.2.2.2.2.1
  · rfl

/-- On the authority `StartRagdoll` sends nothing; elsewhere it sends one `ServerStartRagdoll`. -/
theorem StartRagdoll_SentRemoteCalls (s : Character) :
    (StartRagdoll s).SentRemoteCalls =
      if s.LocalRole = ENetRole.ROLE_Authority then s.SentRemoteCalls
      else s.SentRemoteCalls ++ [RemoteCall.ServerStartRagdoll] := by
  unfold StartRagdoll ServerStartRagdoll
  split_ifs with h
  · exact (OnRep_IsRagdoll_frame { s with bIsRagdoll := true }).2.2.2.2.2.2.2.2.2.1
  · rfl

/-- The fields `OnHealthUpdate` does not write. -/
theorem OnHealthUpdate_frame (s : Character) :
    (OnHealthUpdate s).LocalRole = s.LocalRole ∧
    (OnHealthUpdate s).bLocallyControlled = s.bLocallyControlled ∧
    (OnHealthUpdate s).MaxHealth = s.MaxHealth ∧
    (OnHealthUpdate s).CurrentHealth = s.CurrentHealth ∧
    (OnHealthUpdate s).MaxAmmo = s.MaxAmmo ∧
    (OnHealthUpdate s).CurrentAmmo = s.CurrentAmmo ∧
    (OnHealthUpdate s).AmmoUpdatedEvents = s.AmmoUpdatedEvents ∧
    (OnHealthUpdate s).ForcedNetUpdates = s.ForcedNetUpdates := by
  have hS := fun t => StartRagdoll_frame t
  have hD := fun t => DisableCharacterCollision_frame t
  unfold OnHealthUpdate OnHealthUpdate_Implementation
  simp only [HideUI, AddOnScreenDebugMessage, DisableInput, ite_self]
  split_ifs <;> simp [hS, hD]

/-- The ragdoll flag after `OnHealthUpdate`: it is raised exactly when the instance is a locally
controlled authority whose health is not positive, and is otherwise left as it was. -/
theorem OnHealthUpdate_bIsRagdoll (s : Character) :
    (OnHealthUpdate s).bIsRagdoll =
      if s.bLocallyControlled = true ∧ s.CurrentHealth ≤ 0 ∧
          s.LocalRole = ENetRole.ROLE_Authority then true
      else s.bIsRagdoll := by
  have hS := fun t => StartRagdoll_frame t
  have hR := fun t => StartRagdoll_bIsRagdoll t
  have hD := fun t => DisableCharacterCollision_frame t
  unfold OnHealthUpdate OnHealthUpdate_Implementation
  simp only [HideUI, AddOnScreenDebugMessage, DisableInput, ite_self]
  split_ifs <;> simp_all

/-- The remote calls sent by `OnHealthUpdate`: one `ServerStartRagdoll` exactly when the instance
is locally controlled, not the authority, and its health is not positive. -/
theorem OnHealthUpdate_SentRemoteCalls (s : Character) :
    (OnHealthUpdate s).SentRemoteCalls =
      if s.bLocallyControlled = true ∧ s.CurrentHealth ≤ 0 ∧
          s.LocalRole ≠ ENetRole.ROLE_Authority then
        s.SentRemoteCalls ++ [RemoteCall.ServerStartRagdoll]
      else s.SentRemoteCalls := by
  have hS := fun t => StartRagdoll_frame t
  have hR := fun t => StartRagdoll_SentRemoteCalls t
  have hD := fun t => DisableCharacterCollision_frame t
  unfold OnHealthUpdate OnHealthUpdate_Implementation
  simp only [HideUI, AddOnScreenDebugMessage, DisableInput, ite_self]
  split_ifs <;> simp_all

/-- The fields `SetCurrentHealth` never writes, on any instance. -/
theorem SetCurrentHealth_frame (x : ℚ) (s : Character) :
    (SetCurrentHealth x s).LocalRole = s.LocalRole ∧
    (SetCurrentHealth x s).bLocallyControlled = s.bLocallyControlled ∧
    (SetCurrentHealth x s).MaxHealth = s.MaxHealth ∧
    (SetCurrentHealth x s).MaxAmmo = s.MaxAmmo ∧
    (SetCurrentHealth x s).CurrentAmmo = s.CurrentAmmo := by
  unfold SetCurrentHealth
  split_ifs with h
  · obtain ⟨h1, h2, h3, _, h5, h6, _, _⟩ :=
      OnHealthUpdate_frame { s with CurrentHealth := FMath.Clamp x 0 s.MaxHealth }
    exact ⟨h1, h2, h3, h5, h6⟩
  · simp

/-- Health after `SetCurrentHealth` on the authority is the clamped argument. -/
theorem SetCurrentHealth_CurrentHealth (x : ℚ) (s : Character)
    (hauth : s.LocalRole = ENetRole.ROLE_Authority) :
    (SetCurrentHealth x s).CurrentHealth = FMath.Clamp x 0 s.MaxHealth := by
  unfold SetCurrentHealth
  rw [if_pos hauth]
  exact (OnHealthUpdate_frame { s with CurrentHealth := FMath.Clamp x 0 s.MaxHealth }).2.2.2.1

/-- The ragdoll flag after `SetCurrentHealth` on the authority. -/
theorem SetCurrentHealth_bIsRagdoll (x : ℚ) (s : Character)
    (hauth : s.LocalRole = ENetRole.ROLE_Authority) :
    (SetCurrentHealth x s).bIsRagdoll =
      if s.bLocallyControlled = true ∧ FMath.Clamp x 0 s.MaxHealth ≤ 0 then true
      else s.bIsRagdoll := by
  unfold SetCurrentHealth
  rw [if_pos hauth, OnHealthUpdate_bIsRagdoll]
  simp [hauth]

/-- Off the authority `SetCurrentHealth` returns the state it was given. -/
theorem SetCurrentHealth_of_not_authority (x : ℚ) (s : Character)
    (h : s.LocalRole ≠ ENetRole.ROLE_Authority) : SetCurrentHealth x s = s := by
  unfold SetCurrentHealth
  rw [if_neg h]

theorem spawnOn_fields (role : ENetRole) (lc : Bool) :
    (spawnOn role lc).LocalRole = role ∧ (spawnOn role lc).bLocallyControlled = lc ∧
    (spawnOn role lc).MaxHealth = 100 ∧ (spawnOn role lc).CurrentHealth = 100 ∧
    (spawnOn role lc).MaxAmmo = 5 ∧ (spawnOn role lc).CurrentAmmo = 5 ∧
    (spawnOn role lc).bIsRagdoll = false :=
  ⟨rfl, rfl, rfl, rfl, rfl, rfl, rfl⟩

theorem woundedAuthority_fields (lc : Bool) :
    (woundedAuthority lc).LocalRole = ENetRole.ROLE_Authority ∧
    (woundedAuthority lc).bLocallyControlled = lc ∧
    (woundedAuthority lc).MaxHealth = 100 ∧ (woundedAuthority lc).CurrentHealth = 10 ∧
    (woundedAuthority lc).bIsRagdoll = false := by
  have hf := SetCurrentHealth_frame (100 - 90) (spawnOn ENetRole.ROLE_Authority lc)
  have hh := SetCurrentHealth_CurrentHealth (100 - 90) (spawnOn ENetRole.ROLE_Authority lc) rfl
  have hr := SetCurrentHealth_bIsRagdoll (100 - 90) (spawnOn ENetRole.ROLE_Authority lc) rfl
  have hc : FMath.Clamp (100 - 90) 0 100 = 10 := by
    norm_num [FMath.Clamp, FMath.Max, FMath.Min]
  obtain ⟨s1, s2, s3, s4, _, _, s7⟩ := spawnOn_fields ENetRole.ROLE_Authority lc
  rw [s3, hc] at hh hr
  refine ⟨?_, ?_, ?_, ?_, ?_⟩
  · exact hf.1.trans s1
  · exact hf.2.1.trans s2
  · exact hf.2.2.1.trans s3
  · simpa [woundedAuthority, TakeDamage, s4] using hh
  · have h10 : ¬ ((10 : ℚ) ≤ 0) := by norm_num
    simpa [woundedAuthority, TakeDamage, s4, s7, h10] using hr

theorem woundedObserver_fields (lc : Bool) :
    (woundedObserver ENetRole.ROLE_SimulatedProxy lc).LocalRole = ENetRole.ROLE_SimulatedProxy ∧
    (woundedObserver ENetRole.ROLE_SimulatedProxy lc).bLocallyControlled = lc ∧
    (woundedObserver ENetRole.ROLE_SimulatedProxy lc).MaxHealth = 100 ∧
    (woundedObserver ENetRole.ROLE_SimulatedProxy lc).CurrentHealth = 10 := by
  obtain ⟨h1, h2, h3, h4, _⟩ := OnHealthUpdate_frame
    { spawnOn ENetRole.ROLE_SimulatedProxy lc with CurrentHealth := 10 }
  exact ⟨h1, h2, h3, h4⟩

theorem deadAuthority_fields :
    (deadAuthority true).LocalRole = ENetRole.ROLE_Authority ∧
    (deadAuthority true).MaxHealth = 100 ∧
    (deadAuthority true).CurrentHealth = 0 ∧
    (deadAuthority true).CurrentAmmo = 0 ∧
    (deadAuthority true).bIsRagdoll = true := by
  obtain ⟨h1, h2, h3, h4, _⟩ := woundedAuthority_fields true
  have hf := SetCurrentHealth_frame (10 - 15) (woundedAuthority true)
  have hh := SetCurrentHealth_CurrentHealth (10 - 15) (woundedAuthority true) h1
  have hr := SetCurrentHealth_bIsRagdoll (10 - 15) (woundedAuthority true) h1
  have hc : FMath.Clamp (10 - 15) 0 (woundedAuthority true).MaxHealth = 0 :=
    FMath_Clamp_of_lt _ _ _ (by norm_num)
  rw [hc] at hh hr
  refine ⟨?_, ?_, ?_, rfl, ?_⟩
  · simpa [deadAuthority, TakeDamage, h4] using hf.1.trans h1
  · simpa [deadAuthority, TakeDamage, h4] using hf.2.2.1.trans h3
  · simpa [deadAuthority, TakeDamage, h4] using hh
  · simpa [deadAuthority, TakeDamage, h4, h2] using hr

/-- What `ServerRespawn_Implementation` does to the replicated fields and to the design-time
values, on every instance. -/
theorem ServerRespawn_Implementation_fields (s : Character) :
    (ServerRespawn_Implementation s).LocalRole = s.LocalRole ∧
    (ServerRespawn_Implementation s).MaxHealth = s.MaxHealth ∧
    (ServerRespawn_Implementation s).MaxAmmo = s.MaxAmmo ∧
    (ServerRespawn_Implementation s).CurrentHealth = s.MaxHealth ∧
    (ServerRespawn_Implementation s).CurrentAmmo = s.MaxAmmo ∧
    (ServerRespawn_Implementation s).bIsRagdoll = false := by
  have hH := OnHealthUpdate_frame { s with CurrentHealth := s.MaxHealth }
  simp only [ServerRespawn_Implementation, OnAmmoUpdated, EnableInput, ForceNetUpdate]
  generalize OnHealthUpdate { s with CurrentHealth := s.MaxHealth } = s1 at hH ⊢
  obtain ⟨h1, _, h3, h4, h5, _, _, _⟩ := hH
  simp only at h1 h3 h4 h5
  have hR := OnRep_IsRagdoll_frame
    { s1 with CurrentAmmo := s1.MaxAmmo, AmmoUpdatedEvents := s1.AmmoUpdatedEvents + 1,
              bIsRagdoll := false }
  generalize OnRep_IsRagdoll
    { s1 with CurrentAmmo := s1.MaxAmmo, AmmoUpdatedEvents := s1.AmmoUpdatedEvents + 1,
              bIsRagdoll := false } = s3 at hR ⊢
  obtain ⟨r1, _, r3, r4, r5, r6, r7, _⟩ := hR
  simp only at r1 r3 r4 r5 r6 r7
  obtain ⟨_, _, _, _, _, _, _, _, _, _, mesh, mov, _, _, _, _⟩ := s3
  simp only at r1 r3 r4 r5 r6 r7
  cases mesh <;> cases mov <;> simp [r1, r3, r4, r5, r6, r7, h1, h3, h4, h5]

/-- Every authority operation keeps the role and the two design-time maxima. -/
theorem AuthorityOp_run_frame (op : AuthorityOp) (s : Character) :
    (op.run s).LocalRole = s.LocalRole ∧ (op.run s).MaxHealth = s.MaxHealth ∧
    (op.run s).MaxAmmo = s.MaxAmmo := by
  cases op with
  | SetCurrentHealth x =>
    have h := SetCurrentHealth_frame x s
    exact ⟨h.1, h.2.2.1, h.2.2.2.1⟩
  | TakeDamage d =>
    have h := SetCurrentHealth_frame (s.CurrentHealth - d) s
    exact ⟨h.1, h.2.2.1, h.2.2.2.1⟩
  | AddAmmo n =>
    simp only [AuthorityOp.run, AddAmmo, OnAmmoUpdated]
    split_ifs <;> exact ⟨rfl, rfl, rfl⟩
  | StartRagdoll =>
    have h := StartRagdoll_frame s
    exact ⟨h.1, h.2.2.1, h.2.2.2.2.1⟩
  | ServerStartRagdoll => exact ⟨rfl, rfl, rfl⟩
  | ServerRespawn =>
    have h := ServerRespawn_Implementation_fields s
    exact ⟨h.1, h.2.1, h.2.2.1⟩

/-- One authority operation preserves the range invariant. -/
theorem AuthorityOp_run_invariant (op : AuthorityOp) (s : Character)
    (hauth : s.LocalRole = ENetRole.ROLE_Authority) (hmax : 0 < s.MaxHealth)
    (hammo : 0 ≤ s.MaxAmmo) (hinv : RangeInvariant s) : RangeInvariant (op.run s) := by
  obtain ⟨i1, i2, i3, i4⟩ := hinv
  cases op with
  | SetCurrentHealth x =>
    have hf := SetCurrentHealth_frame x s
    have hh := SetCurrentHealth_CurrentHealth x s hauth
    have hb := FMath_Clamp_bounds x 0 s.MaxHealth hmax.le
    simp only [AuthorityOp.run, RangeInvariant, hf.2.2.1, hf.2.2.2.1, hf.2.2.2.2, hh]
    exact ⟨hb.1, hb.2, i3, i4⟩
  | TakeDamage d =>
    have hf := SetCurrentHealth_frame (s.CurrentHealth - d) s
    have hh := SetCurrentHealth_CurrentHealth (s.CurrentHealth - d) s hauth
    have hb := FMath_Clamp_bounds (s.CurrentHealth - d) 0 s.MaxHealth hmax.le
    simp only [AuthorityOp.run, TakeDamage, RangeInvariant, hf.2.2.1, hf.2.2.2.1, hf.2.2.2.2, hh]
    exact ⟨hb.1, hb.2, i3, i4⟩
  | AddAmmo n =>
    simp only [AuthorityOp.run, AddAmmo, OnAmmoUpdated, if_pos hauth, RangeInvariant]
    exact ⟨i1, i2, hammo, le_refl _⟩
  | StartRagdoll =>
    have h := StartRagdoll_frame s
    simp only [AuthorityOp.run, RangeInvariant, h.2.2.1, h.2.2.2.1, h.2.2.2.2.1, h.2.2.2.2.2.1]
    exact ⟨i1, i2, i3, i4⟩
  | ServerStartRagdoll => exact ⟨i1, i2, i3, i4⟩
  | ServerRespawn =>
    have h := ServerRespawn_Implementation_fields s
    simp only [AuthorityOp.run, RangeInvariant, h.2.1, h.2.2.1, h.2.2.2.1, h.2.2.2.2.1]
    exact ⟨hmax.le, le_refl _, hammo, le_refl _⟩

/-! ## Health: clamping, frame and death -/

/-- C1: on an authority instance with `MaxHealth > 0`, `SetCurrentHealth x` leaves `CurrentHealth`
equal to `clamp(x, 0, MaxHealth)`, which is `0` when `x < 0`, `MaxHealth` when `x > MaxHealth`,
and `x` otherwise. -/
theorem SetCurrentHealth_clamps (x : ℚ) (s : Character)
    (hauth : s.LocalRole = ENetRole.ROLE_Authority) (hmax : 0 < s.MaxHealth) :
    (SetCurrentHealth x s).CurrentHealth = FMath.Clamp x 0 s.MaxHealth ∧
    (SetCurrentHealth x s).CurrentHealth =
      (if x < 0 then 0 else if s.MaxHealth < x then s.MaxHealth else x) := by
  have h := SetCurrentHealth_CurrentHealth x s hauth
  refine ⟨h, ?_⟩
  rw [h]
  split_ifs with h1 h2
  · exact FMath_Clamp_of_lt x 0 s.MaxHealth h1
  · exact FMath_Clamp_of_gt x 0 s.MaxHealth hmax.le h2
  · exact FMath_Clamp_of_mem x 0 s.MaxHealth (not_lt.mp h1) (not_lt.mp h2)

/-- Witness for C1: a spawned authority asked for 250 health ends at its maximum, 100. -/
theorem SetCurrentHealth_clamps_witness :
    (SetCurrentHealth 250 (spawnOn ENetRole.ROLE_Authority false)).CurrentHealth = 100 := by
  have h := (SetCurrentHealth_clamps 250 (spawnOn ENetRole.ROLE_Authority false) rfl
    (by norm_num [(spawnOn_fields ENetRole.ROLE_Authority false).2.2.1])).2
  rw [h, (spawnOn_fields ENetRole.ROLE_Authority false).2.2.1]
  norm_num

/-- C2: on a non-authority instance, calling `TakeDamage`, `SetCurrentHealth`, `AddAmmo` or
`StartRagdoll` directly leaves `CurrentHealth`, `CurrentAmmo` and `bIsRagdoll` unchanged, for
every argument. -/
theorem non_authority_calls_keep_fields (s : Character)
    (hrole : s.LocalRole ≠ ENetRole.ROLE_Authority) (DamageTaken healthValue : ℚ) (Amount : Int) :
    ReplicatedFields (TakeDamage DamageTaken s).2 = ReplicatedFields s ∧
    ReplicatedFields (SetCurrentHealth healthValue s) = ReplicatedFields s ∧
    ReplicatedFields (AddAmmo Amount s) = ReplicatedFields s ∧
    ReplicatedFields (StartRagdoll s) = ReplicatedFields s := by
  refine ⟨?_, ?_, ?_, ?_⟩
  · simp only [TakeDamage, SetCurrentHealth_of_not_authority _ s hrole]
  · rw [SetCurrentHealth_of_not_authority _ s hrole]
  · simp only [AddAmmo, if_neg hrole]
  · have hf := StartRagdoll_frame s
    have hr := StartRagdoll_bIsRagdoll s
    rw [if_neg hrole] at hr
    simp only [ReplicatedFields, hf.2.2.2.1, hf.2.2.2.2.2.1, hr]

/-- Witness for C2: a locally controlled autonomous proxy at spawn keeps health 100, ammunition 5
and a cleared ragdoll flag under all four calls. -/
theorem non_authority_calls_keep_fields_witness :
    ReplicatedFields (TakeDamage 15 (spawnOn ENetRole.ROLE_AutonomousProxy true)).2
      = (100, 5, false) ∧
    ReplicatedFields (SetCurrentHealth 0 (spawnOn ENetRole.ROLE_AutonomousProxy true))
      = (100, 5, false) ∧
    ReplicatedFields (AddAmmo 3 (spawnOn ENetRole.ROLE_AutonomousProxy true))
      = (100, 5, false) ∧
    ReplicatedFields (StartRagdoll (spawnOn ENetRole.ROLE_AutonomousProxy true))
      = (100, 5, false) :=
  non_authority_calls_keep_fields (spawnOn ENetRole.ROLE_AutonomousProxy true) (by decide) 15 0 3

/-- C3 as stated fails: an authority that is not locally controlled, at health 10 of 100, takes
15 damage; health drops to 0 but the ragdoll flag stays cleared. -/
theorem TakeDamage_death_without_ragdoll :
    (woundedAuthority false).LocalRole = ENetRole.ROLE_Authority ∧
    (woundedAuthority false).CurrentHealth = 10 ∧
    (woundedAuthority false).MaxHealth = 100 ∧
    (woundedAuthority false).CurrentHealth ≤ 15 ∧
    (TakeDamage 15 (woundedAuthority false)).2.CurrentHealth = 0 ∧
    (TakeDamage 15 (woundedAuthority false)).2.bIsRagdoll = false := by
  obtain ⟨h1, h2, h3, h4, h5⟩ := woundedAuthority_fields false
  have hh := SetCurrentHealth_CurrentHealth (10 - 15) (woundedAuthority false) h1
  have hr := SetCurrentHealth_bIsRagdoll (10 - 15) (woundedAuthority false) h1
  rw [h2] at hr
  refine ⟨h1, h4, h3, by rw [h4]; norm_num, ?_, ?_⟩
  · simp only [TakeDamage, h4, hh]
    exact FMath_Clamp_of_lt _ _ _ (by norm_num)
  · simp only [TakeDamage, h4, hr, h5]
    simp

/-- C3, amended: on an authority instance, `TakeDamage amount` with `amount ≥ CurrentHealth`
leaves `CurrentHealth = 0`; the ragdoll flag is `true` afterwards when the instance is locally
controlled, and is left as it was when it is not.  In that case the flag follows later: the
locally controlled observer that receives the replicated health sends one `ServerStartRagdoll`,
and its delivery sets the flag on the authority. -/
theorem TakeDamage_death (amount : ℚ) (s : Character)
    (hauth : s.LocalRole = ENetRole.ROLE_Authority) (hle : s.CurrentHealth ≤ amount) :
    (TakeDamage amount s).2.CurrentHealth = 0 ∧
    (s.bLocallyControlled = true → (TakeDamage amount s).2.bIsRagdoll = true) ∧
    (s.bLocallyControlled = false → (TakeDamage amount s).2.bIsRagdoll = s.bIsRagdoll) ∧
    (∀ client : Character, client.LocalRole ≠ ENetRole.ROLE_Authority →
      client.bLocallyControlled = true →
      (ReplicateCurrentHealth (TakeDamage amount s).2.CurrentHealth client).SentRemoteCalls
        = client.SentRemoteCalls ++ [RemoteCall.ServerStartRagdoll] ∧
      (DeliverRemoteCall RemoteCall.ServerStartRagdoll (TakeDamage amount s).2).bIsRagdoll
        = true) := by
  have hc : FMath.Clamp (s.CurrentHealth - amount) 0 s.MaxHealth = 0 :=
    FMath_Clamp_of_le _ _ _ (by linarith)
  have hh := SetCurrentHealth_CurrentHealth (s.CurrentHealth - amount) s hauth
  have hr := SetCurrentHealth_bIsRagdoll (s.CurrentHealth - amount) s hauth
  rw [hc] at hh hr
  have hh2 : (TakeDamage amount s).2.CurrentHealth = 0 := hh
  refine ⟨hh, ?_, ?_, ?_⟩
  · intro hlc
    simp only [TakeDamage, hr, hlc]
    simp
  · intro hlc
    simp only [TakeDamage, hr, hlc]
    simp
  · intro client hrole hlc
    refine ⟨?_, rfl⟩
    rw [hh2]
    unfold ReplicateCurrentHealth OnRep_CurrentHealth
    rw [OnHealthUpdate_SentRemoteCalls]
    simp [hlc, hrole]

/-- Witness for C3: a locally controlled authority at health 10 of 100 takes 15 damage and ends
with health 0 and the ragdoll flag set. -/
theorem TakeDamage_death_witness :
    (TakeDamage 15 (woundedAuthority true)).2.CurrentHealth = 0 ∧
    (TakeDamage 15 (woundedAuthority true)).2.bIsRagdoll = true := by
  have h := TakeDamage_death 15 (woundedAuthority true) (woundedAuthority_fields true).1
    (by rw [(woundedAuthority_fields true).2.2.2.1]; norm_num)
  exact ⟨h.1, h.2.1 (woundedAuthority_fields true).2.1⟩

/-! ## Respawn, returned value and ammunition -/

/-- C4: from every authority state with the ragdoll flag set, health 0 and ammunition 0, handling
the respawn call yields `CurrentHealth = MaxHealth`, `CurrentAmmo = MaxAmmo` and a cleared
ragdoll flag. -/
theorem ServerRespawn_restores_defaults (s : Character)
    (hauth : s.LocalRole = ENetRole.ROLE_Authority) (hrag : s.bIsRagdoll = true)
    (hhealth : s.CurrentHealth = 0) (hammo : s.CurrentAmmo = 0) :
    (ServerRespawn_Implementation s).CurrentHealth = s.MaxHealth ∧
    (ServerRespawn_Implementation s).CurrentAmmo = s.MaxAmmo ∧
    (ServerRespawn_Implementation s).bIsRagdoll = false ∧
    (ServerRespawn_Implementation s).MaxHealth = s.MaxHealth ∧
    (ServerRespawn_Implementation s).MaxAmmo = s.MaxAmmo := by
  have h := ServerRespawn_Implementation_fields s
  exact ⟨h.2.2.2.1, h.2.2.2.2.1, h.2.2.2.2.2, h.2.1, h.2.2.1⟩

/-- Witness for C4: the dead, locally controlled authority with no ammunition respawns with health
100, ammunition 5 and a cleared ragdoll flag. -/
theorem ServerRespawn_restores_defaults_witness :
    (ServerRespawn_Implementation (deadAuthority true)).CurrentHealth = 100 ∧
    (ServerRespawn_Implementation (deadAuthority true)).CurrentAmmo = 5 ∧
    (ServerRespawn_Implementation (deadAuthority true)).bIsRagdoll = false := by
  obtain ⟨d1, d2, d3, d4, d5⟩ := deadAuthority_fields
  have h := ServerRespawn_restores_defaults (deadAuthority true) d1 d5 d3 d4
  have hm : (deadAuthority true).MaxAmmo = 5 := by
    have hf := SetCurrentHealth_frame (10 - 15) (woundedAuthority true)
    have hg := SetCurrentHealth_frame (100 - 90) (spawnOn ENetRole.ROLE_Authority true)
    have h4 := (woundedAuthority_fields true).2.2.2.1
    have e1 : (deadAuthority true).MaxAmmo = (woundedAuthority true).MaxAmmo := by
      simpa [deadAuthority, TakeDamage, h4] using hf.2.2.2.1
    rw [e1]
    exact hg.2.2.2.1
  exact ⟨h.1.trans d2, h.2.1.trans hm, h.2.2.1⟩

/-- C5 fails on the code: at health 10 of 100, `TakeDamage 15` returns `-5`, the difference
computed before `SetCurrentHealth` clamps and role-checks it, while the health after the call is
`0` on the authority and still `10` on an observer.  The returned value is the health after the
call on neither instance.  All values here are exactly representable as `float`. -/
theorem TakeDamage_return_differs :
    (TakeDamage 15 (woundedAuthority false)).1 = -5 ∧
    (TakeDamage 15 (woundedAuthority false)).2.CurrentHealth = 0 ∧
    (TakeDamage 15 (woundedAuthority false)).1 ≠
      (TakeDamage 15 (woundedAuthority false)).2.CurrentHealth ∧
    (TakeDamage 15 (woundedObserver ENetRole.ROLE_SimulatedProxy false)).1 = -5 ∧
    (TakeDamage 15 (woundedObserver ENetRole.ROLE_SimulatedProxy false)).2.CurrentHealth = 10 ∧
    (TakeDamage 15 (woundedObserver ENetRole.ROLE_SimulatedProxy false)).1 ≠
      (TakeDamage 15 (woundedObserver ENetRole.ROLE_SimulatedProxy false)).2.CurrentHealth := by
  obtain ⟨a1, _, _, a4, _⟩ := woundedAuthority_fields false
  obtain ⟨o1, _, _, o4⟩ := woundedObserver_fields false
  have ha : (TakeDamage 15 (woundedAuthority false)).1 = -5 := by
    simp only [TakeDamage, a4]
    norm_num
  have hb : (TakeDamage 15 (woundedAuthority false)).2.CurrentHealth = 0 := by
    have hh := SetCurrentHealth_CurrentHealth (10 - 15) (woundedAuthority false) a1
    simp only [TakeDamage, a4, hh]
    exact FMath_Clamp_of_lt _ _ _ (by norm_num)
  have hc : (TakeDamage 15 (woundedObserver ENetRole.ROLE_SimulatedProxy false)).1 = -5 := by
    simp only [TakeDamage, o4]
    norm_num
  have hd : (TakeDamage 15 (woundedObserver ENetRole.ROLE_SimulatedProxy false)).2.CurrentHealth
      = 10 := by
    have hn : (woundedObserver ENetRole.ROLE_SimulatedProxy false).LocalRole
        ≠ ENetRole.ROLE_Authority := by
      rw [o1]
      decide
    simp only [TakeDamage, SetCurrentHealth_of_not_authority _ _ hn, o4]
  refine ⟨ha, hb, ?_, hc, hd, ?_⟩
  · rw [ha, hb]
    norm_num
  · rw [hc, hd]
    norm_num

/-- C6: on an authority instance `AddAmmo Amount` leaves `CurrentAmmo = MaxAmmo` and leaves
`CurrentHealth` and `bIsRagdoll` unchanged, and the resulting state is the same for every
`Amount`. -/
theorem AddAmmo_refills (Amount Other : Int) (s : Character)
    (hauth : s.LocalRole = ENetRole.ROLE_Authority) :
    (AddAmmo Amount s).CurrentAmmo = s.MaxAmmo ∧
    (AddAmmo Amount s).CurrentHealth = s.CurrentHealth ∧
    (AddAmmo Amount s).bIsRagdoll = s.bIsRagdoll ∧
    AddAmmo Amount s = AddAmmo Other s := by
  have run : ∀ n : Int, AddAmmo n s = OnAmmoUpdated { s with CurrentAmmo := s.MaxAmmo } := by
    intro n
    simp only [AddAmmo, if_pos hauth]
  refine ⟨?_, ?_, ?_, ?_⟩
  · rw [run Amount]
    rfl
  · rw [run Amount]
    rfl
  · rw [run Amount]
    rfl
  · rw [run Amount, run Other]

/-- Witness for C6: the dead authority with no ammunition is refilled to its maximum by
`AddAmmo (-3)`, and `AddAmmo 2` gives the same state. -/
theorem AddAmmo_refills_witness :
    (AddAmmo (-3) (deadAuthority true)).CurrentAmmo = (deadAuthority true).MaxAmmo ∧
    AddAmmo (-3) (deadAuthority true) = AddAmmo 2 (deadAuthority true) := by
  have h := AddAmmo_refills (-3) 2 (deadAuthority true) deadAuthority_fields.1
  exact ⟨h.1, h.2.2.2⟩

/-- C7: the range invariant `0 ≤ CurrentHealth ≤ MaxHealth` and `0 ≤ CurrentAmmo ≤ MaxAmmo` holds
in the state the constructor builds; with `MaxHealth > 0` and `MaxAmmo ≥ 0` every authority
operation preserves it, for every argument, and keeps the role and the maxima; so it holds in
every state the authority reaches from a spawn state that satisfies it. -/
theorem RangeInvariant_reachable :
    (∀ base : Character, RangeInvariant (AIpvMulti2Character base)) ∧
    (∀ (op : AuthorityOp) (s : Character), s.LocalRole = ENetRole.ROLE_Authority →
      0 < s.MaxHealth → 0 ≤ s.MaxAmmo → RangeInvariant s → RangeInvariant (op.run s)) ∧
    (∀ spawn s : Character, spawn.LocalRole = ENetRole.ROLE_Authority →
      0 < spawn.MaxHealth → 0 ≤ spawn.MaxAmmo → RangeInvariant spawn →
      Reachable spawn s → RangeInvariant s) := by
  refine ⟨?_, AuthorityOp_run_invariant, ?_⟩
  · intro base
    simp [RangeInvariant, AIpvMulti2Character]
  · intro spawn s hauth hmax hammo hinv hreach
    have key : s.LocalRole = ENetRole.ROLE_Authority ∧ s.MaxHealth = spawn.MaxHealth ∧
        s.MaxAmmo = spawn.MaxAmmo ∧ RangeInvariant s := by
      induction hreach with
      | start => exact ⟨hauth, rfl, rfl, hinv⟩
      | step op t _ ih =>
        obtain ⟨t1, t2, t3, t4⟩ := ih
        obtain ⟨f1, f2, f3⟩ := AuthorityOp_run_frame op t
        refine ⟨f1.trans t1, f2.trans t2, f3.trans t3, ?_⟩
        exact AuthorityOp_run_invariant op t t1 (t2 ▸ hmax) (t3 ▸ hammo) t4
    exact key.2.2.2

/-- Witness for C7: a spawned authority that takes 130 damage and is then respawned is reachable,
and the invariant holds there. -/
theorem RangeInvariant_reachable_witness :
    RangeInvariant (AuthorityOp.ServerRespawn.run
      ((AuthorityOp.TakeDamage 130).run (spawnOn ENetRole.ROLE_Authority true))) := by
  obtain ⟨s1, _, s3, _, s5, _, _⟩ := spawnOn_fields ENetRole.ROLE_Authority true
  exact RangeInvariant_reachable.2.2 (spawnOn ENetRole.ROLE_Authority true) _ s1
    (by rw [s3]; norm_num) (by rw [s5]; norm_num)
    (RangeInvariant_reachable.1 _)
    (Reachable.step _ _ (Reachable.step _ _ Reachable.start))

/-! ## Ragdoll: round trip, idempotence and delivery order -/

/-- Running `DisableCharacterCollision` a second time changes nothing. -/
theorem DisableCharacterCollision_twice (s : Character) :
    DisableCharacterCollision (DisableCharacterCollision s) = DisableCharacterCollision s := by
  obtain ⟨_, _, _, _, _, _, _, _, _, _, mesh, mov, _, _, _, _⟩ := s
  cases mesh <;> cases mov <;>
    simp [DisableCharacterCollision, UCapsuleComponent.SetCollisionEnabled,
      UCapsuleComponent.SetCollisionResponseToAllChannels,
      USkeletalMeshComponent.SetCollisionResponseToAllChannels,
      USkeletalMeshComponent.SetCollisionResponseToChannel,
      UCharacterMovementComponent.StopMovementImmediately,
      UCharacterMovementComponent.DisableMovement, UCharacterMovementComponent.SetMovementMode]

/-- With the ragdoll flag set, running `OnRep_IsRagdoll` a second time changes nothing. -/
theorem OnRep_IsRagdoll_twice (s : Character) (hrag : s.bIsRagdoll = true) :
    OnRep_IsRagdoll (OnRep_IsRagdoll s) = OnRep_IsRagdoll s := by
  obtain ⟨_, _, _, _, _, _, rag, _, _, _, mesh, mov, _, _, _, _⟩ := s
  simp only at hrag
  subst hrag
  cases mesh <;> cases mov <;>
    simp [OnRep_IsRagdoll, DisableCharacterCollision, UCapsuleComponent.SetCollisionEnabled,
      UCapsuleComponent.SetCollisionResponseToAllChannels,
      USkeletalMeshComponent.SetCollisionEnabled, USkeletalMeshComponent.SetSimulatePhysics,
      USkeletalMeshComponent.SetAllBodiesSimulatePhysics,
      USkeletalMeshComponent.WakeAllRigidBodies,
      USkeletalMeshComponent.SetCollisionResponseToAllChannels,
      USkeletalMeshComponent.SetCollisionResponseToChannel,
      UCharacterMovementComponent.StopMovementImmediately,
      UCharacterMovementComponent.DisableMovement, UCharacterMovementComponent.SetMovementMode]

/-- What the ragdoll-active branch of `OnRep_IsRagdoll` leaves behind when the mesh is present. -/
theorem OnRep_IsRagdoll_active (s : Character) (m : USkeletalMeshComponent)
    (hrag : s.bIsRagdoll = true) (hmesh : s.Mesh = some m) :
    (OnRep_IsRagdoll s).Capsule.CollisionEnabled = ECollisionEnabled.NoCollision ∧
    (OnRep_IsRagdoll s).Capsule.ResponseToChannels = (fun _ => ECollisionResponse.ECR_Ignore) ∧
    (OnRep_IsRagdoll s).Movement.map (fun c => c.MovementMode) =
      s.Movement.map (fun _ => EMovementMode.MOVE_None) ∧
    ∃ m2, (OnRep_IsRagdoll s).Mesh = some m2 ∧
      m2.CollisionEnabled = ECollisionEnabled.QueryAndPhysics ∧
      m2.bSimulatePhysics = true ∧ m2.bAllBodiesSimulatePhysics = true ∧
      m2.bRigidBodiesAwake = true ∧
      m2.ResponseToChannels ECollisionChannel.ECC_WorldStatic = ECollisionResponse.ECR_Block ∧
      m2.ResponseToChannels ECollisionChannel.ECC_WorldDynamic = ECollisionResponse.ECR_Block ∧
      m2.ResponseToChannels ECollisionChannel.ECC_PhysicsBody = ECollisionResponse.ECR_Block ∧
      m2.ResponseToChannels ECollisionChannel.ECC_Pawn = ECollisionResponse.ECR_Ignore := by
  obtain ⟨_, _, _, _, _, _, rag, _, _, _, mesh, mov, _, _, _, _⟩ := s
  simp only at hrag hmesh
  subst hrag hmesh
  cases mov <;>
    simp [OnRep_IsRagdoll, DisableCharacterCollision, UCapsuleComponent.SetCollisionEnabled,
      UCapsuleComponent.SetCollisionResponseToAllChannels,
      USkeletalMeshComponent.SetCollisionEnabled, USkeletalMeshComponent.SetSimulatePhysics,
      USkeletalMeshComponent.SetAllBodiesSimulatePhysics,
      USkeletalMeshComponent.WakeAllRigidBodies,
      USkeletalMeshComponent.SetCollisionResponseToAllChannels,
      USkeletalMeshComponent.SetCollisionResponseToChannel,
      UCharacterMovementComponent.StopMovementImmediately,
      UCharacterMovementComponent.DisableMovement, UCharacterMovementComponent.SetMovementMode]

/-- Off the authority `StartRagdoll` only appends one `ServerStartRagdoll` to the sent calls. -/
theorem StartRagdoll_of_not_authority (s : Character)
    (h : s.LocalRole ≠ ENetRole.ROLE_Authority) :
    StartRagdoll s =
      { s with SentRemoteCalls := s.SentRemoteCalls ++ [RemoteCall.ServerStartRagdoll] } := by
  simp only [StartRagdoll, ServerStartRagdoll, if_neg h]

/-- The two delivery orders of `bIsRagdoll = true` and `CurrentHealth = 0` on an observer give the
same state. -/
theorem Replicate_commute (s : Character) (hobs : s.LocalRole ≠ ENetRole.ROLE_Authority) :
    ReplicateCurrentHealth 0 (ReplicateIsRagdoll true s) =
      ReplicateIsRagdoll true (ReplicateCurrentHealth 0 s) := by
  obtain ⟨role, lc, _, _, _, _, _, _, _, _, mesh, mov, _, _, _, _⟩ := s
  simp only at hobs
  cases lc <;> cases mesh <;> cases mov <;>
    simp [ReplicateCurrentHealth, ReplicateIsRagdoll, OnRep_CurrentHealth, OnHealthUpdate,
      OnHealthUpdate_Implementation, OnRep_IsRagdoll, DisableCharacterCollision, StartRagdoll,
      ServerStartRagdoll, HideUI, AddOnScreenDebugMessage, hobs]

/-- C8: `StartRagdoll` on a non-authority instance sends exactly one `ServerStartRagdoll` remote
call; delivering it to the authority leaves the authority with `bIsRagdoll = true`; replicating
that value back sets the caller's `bIsRagdoll` to `true` and runs `OnRep_IsRagdoll` in its
ragdoll-active branch, which (the mesh being present) turns on physics simulation of the mesh and
turns off capsule collision. -/
theorem StartRagdoll_round_trip (client server : Character)
    (hclient : client.LocalRole ≠ ENetRole.ROLE_Authority)
    (hserver : server.LocalRole = ENetRole.ROLE_Authority) :
    (StartRagdoll client).SentRemoteCalls =
      client.SentRemoteCalls ++ [RemoteCall.ServerStartRagdoll] ∧
    (DeliverRemoteCall RemoteCall.ServerStartRagdoll server).bIsRagdoll = true ∧
    (DeliverRemoteCall RemoteCall.ServerStartRagdoll server).LocalRole
      = ENetRole.ROLE_Authority ∧
    (ReplicateIsRagdoll (DeliverRemoteCall RemoteCall.ServerStartRagdoll server).bIsRagdoll
      (StartRagdoll client)).bIsRagdoll = true ∧
    ReplicateIsRagdoll (DeliverRemoteCall RemoteCall.ServerStartRagdoll server).bIsRagdoll
      (StartRagdoll client) = OnRep_IsRagdoll { StartRagdoll client with bIsRagdoll := true } ∧
    (∀ m, client.Mesh = some m →
      (ReplicateIsRagdoll (DeliverRemoteCall RemoteCall.ServerStartRagdoll server).bIsRagdoll
        (StartRagdoll client)).Capsule.CollisionEnabled = ECollisionEnabled.NoCollision ∧
      ∃ m2, (ReplicateIsRagdoll
          (DeliverRemoteCall RemoteCall.ServerStartRagdoll server).bIsRagdoll
          (StartRagdoll client)).Mesh = some m2 ∧
        m2.CollisionEnabled = ECollisionEnabled.QueryAndPhysics ∧
        m2.bSimulatePhysics = true ∧ m2.bAllBodiesSimulatePhysics = true ∧
        m2.bRigidBodiesAwake = true) := by
  have hsent := StartRagdoll_SentRemoteCalls client
  rw [if_neg hclient] at hsent
  have hdel : (DeliverRemoteCall RemoteCall.ServerStartRagdoll server).bIsRagdoll = true := rfl
  refine ⟨hsent, hdel, hserver, ?_, ?_, ?_⟩
  · rw [hdel]
    exact (OnRep_IsRagdoll_frame { StartRagdoll client with bIsRagdoll := true }).2.2.2.2.2.2.1
  · rw [hdel]
    rfl
  · intro m hm
    rw [hdel]
    have hmesh : ({ StartRagdoll client with bIsRagdoll := true } : Character).Mesh = some m := by
      rw [StartRagdoll_of_not_authority client hclient]
      exact hm
    obtain ⟨e1, _, _, m2, e4, e5, e6, e7, e8, _⟩ :=
      OnRep_IsRagdoll_active { StartRagdoll client with bIsRagdoll := true } m rfl hmesh
    exact ⟨e1, m2, e4, e5, e6, e7, e8⟩

/-- Witness for C8: a locally controlled autonomous proxy and the authority, both at spawn; the
round trip leaves the proxy with one sent call and the ragdoll flag set. -/
theorem StartRagdoll_round_trip_witness :
    (StartRagdoll (spawnOn ENetRole.ROLE_AutonomousProxy true)).SentRemoteCalls
      = [RemoteCall.ServerStartRagdoll] ∧
    (DeliverRemoteCall RemoteCall.ServerStartRagdoll
      (spawnOn ENetRole.ROLE_Authority false)).bIsRagdoll = true ∧
    (ReplicateIsRagdoll
      (DeliverRemoteCall RemoteCall.ServerStartRagdoll
        (spawnOn ENetRole.ROLE_Authority false)).bIsRagdoll
      (StartRagdoll (spawnOn ENetRole.ROLE_AutonomousProxy true))).bIsRagdoll = true := by
  have h := StartRagdoll_round_trip (spawnOn ENetRole.ROLE_AutonomousProxy true)
    (spawnOn ENetRole.ROLE_Authority false) (by decide) rfl
  exact ⟨h.1, h.2.1, h.2.2.2.1⟩

/-- C9: with `bIsRagdoll = true`, applying `OnRep_IsRagdoll` twice leaves the physics and
collision state, and in fact the whole instance, as applying it once does; the same holds for
`DisableCharacterCollision` alone. -/
theorem ragdoll_apply_idempotent (s : Character) (hrag : s.bIsRagdoll = true) :
    PhysicsCollisionState (OnRep_IsRagdoll (OnRep_IsRagdoll s))
      = PhysicsCollisionState (OnRep_IsRagdoll s) ∧
    PhysicsCollisionState (DisableCharacterCollision (DisableCharacterCollision s))
      = PhysicsCollisionState (DisableCharacterCollision s) ∧
    OnRep_IsRagdoll (OnRep_IsRagdoll s) = OnRep_IsRagdoll s ∧
    DisableCharacterCollision (DisableCharacterCollision s) = DisableCharacterCollision s := by
  have h1 := OnRep_IsRagdoll_twice s hrag
  have h2 := DisableCharacterCollision_twice s
  exact ⟨congrArg PhysicsCollisionState h1, congrArg PhysicsCollisionState h2, h1, h2⟩

/-- Witness for C9: a simulated proxy that received `bIsRagdoll = true` twice. -/
theorem ragdoll_apply_idempotent_witness :
    PhysicsCollisionState
        (OnRep_IsRagdoll (OnRep_IsRagdoll (ragdollPending ENetRole.ROLE_SimulatedProxy false)))
      = PhysicsCollisionState
        (OnRep_IsRagdoll (ragdollPending ENetRole.ROLE_SimulatedProxy false)) :=
  (ragdoll_apply_idempotent (ragdollPending ENetRole.ROLE_SimulatedProxy false) rfl).1

/-- C10: on an observer, locally controlled or not, delivering `bIsRagdoll = true` and then
`CurrentHealth = 0` gives the same replicated fields, the same physics and collision state and the
same sent remote calls as the reverse order; the two final instances are equal. -/
theorem replication_order_independent (s : Character)
    (hobs : s.LocalRole ≠ ENetRole.ROLE_Authority) :
    ReplicatedFields (ReplicateCurrentHealth 0 (ReplicateIsRagdoll true s))
      = ReplicatedFields (ReplicateIsRagdoll true (ReplicateCurrentHealth 0 s)) ∧
    PhysicsCollisionState (ReplicateCurrentHealth 0 (ReplicateIsRagdoll true s))
      = PhysicsCollisionState (ReplicateIsRagdoll true (ReplicateCurrentHealth 0 s)) ∧
    (ReplicateCurrentHealth 0 (ReplicateIsRagdoll true s)).SentRemoteCalls
      = (ReplicateIsRagdoll true (ReplicateCurrentHealth 0 s)).SentRemoteCalls ∧
    ReplicateCurrentHealth 0 (ReplicateIsRagdoll true s)
      = ReplicateIsRagdoll true (ReplicateCurrentHealth 0 s) := by
  have h := Replicate_commute s hobs
  exact ⟨congrArg ReplicatedFields h, congrArg PhysicsCollisionState h,
    congrArg Character.SentRemoteCalls h, h⟩

/-- Witness for C10: a locally controlled autonomous proxy at spawn has sent the same remote
calls after either delivery order. -/
theorem replication_order_independent_witness :
    (ReplicateCurrentHealth 0
      (ReplicateIsRagdoll true (spawnOn ENetRole.ROLE_AutonomousProxy true))).SentRemoteCalls
      = (ReplicateIsRagdoll true
        (ReplicateCurrentHealth 0 (spawnOn ENetRole.ROLE_AutonomousProxy true))).SentRemoteCalls :=
  (replication_order_independent (spawnOn ENetRole.ROLE_AutonomousProxy true) (by decide)).2.2.1

/-! ## Remote ragdoll request against the direct call, and repeated health updates -/

/-- A second run of `OnHealthUpdate` changes nothing but the two logs: with the messages and the
sent remote calls of the first run put back, the instance is the one the first run left. -/
theorem OnHealthUpdate_twice (s : Character) :
    { OnHealthUpdate (OnHealthUpdate s) with
        Messages := (OnHealthUpdate s).Messages
        SentRemoteCalls := (OnHealthUpdate s).SentRemoteCalls } = OnHealthUpdate s := by
  obtain ⟨role, lc, _, health, _, _, rag, _, _, _, mesh, mov, _, _, _, _⟩ := s
  by_cases hr : role = ENetRole.ROLE_Authority <;> by_cases hh : health ≤ 0 <;>
    cases lc <;> cases mesh <;> cases mov <;>
    simp [OnHealthUpdate, OnHealthUpdate_Implementation, OnRep_IsRagdoll,
      DisableCharacterCollision, StartRagdoll, ServerStartRagdoll, HideUI,
      AddOnScreenDebugMessage, DisableInput, UCapsuleComponent.SetCollisionEnabled,
      UCapsuleComponent.SetCollisionResponseToAllChannels,
      USkeletalMeshComponent.SetCollisionEnabled, USkeletalMeshComponent.SetSimulatePhysics,
      USkeletalMeshComponent.SetAllBodiesSimulatePhysics,
      USkeletalMeshComponent.WakeAllRigidBodies,
      USkeletalMeshComponent.SetCollisionResponseToAllChannels,
      USkeletalMeshComponent.SetCollisionResponseToChannel,
      UCharacterMovementComponent.StopMovementImmediately,
      UCharacterMovementComponent.DisableMovement, UCharacterMovementComponent.SetMovementMode,
      hr, hh]

/-- On a locally controlled observer whose health is not positive, every run of `OnHealthUpdate`
sends one more `ServerStartRagdoll`: two runs send two. -/
theorem OnHealthUpdate_twice_SentRemoteCalls (s : Character)
    (hobs : s.LocalRole ≠ ENetRole.ROLE_Authority) (hlc : s.bLocallyControlled = true)
    (hdead : s.CurrentHealth ≤ 0) :
    (OnHealthUpdate (OnHealthUpdate s)).SentRemoteCalls =
      s.SentRemoteCalls ++ [RemoteCall.ServerStartRagdoll, RemoteCall.ServerStartRagdoll] := by
  obtain ⟨f1, f2, _, f4, _⟩ := OnHealthUpdate_frame s
  rw [OnHealthUpdate_SentRemoteCalls (OnHealthUpdate s), OnHealthUpdate_SentRemoteCalls s,
    f1, f2, f4]
  simp [hobs, hlc, hdead]

/-- The killed authority that is not locally controlled: dead, flag still cleared. -/
theorem killedAuthority_fields :
    (killedAuthority false).LocalRole = ENetRole.ROLE_Authority ∧
    (killedAuthority false).CurrentHealth = 0 ∧
    (killedAuthority false).bIsRagdoll = false := by
  obtain ⟨s1, _, s3, s4, _, _, s7⟩ := spawnOn_fields ENetRole.ROLE_Authority false
  have hf := SetCurrentHealth_frame (100 - 100) (spawnOn ENetRole.ROLE_Authority false)
  have hh := SetCurrentHealth_CurrentHealth (100 - 100) (spawnOn ENetRole.ROLE_Authority false) rfl
  have hr := SetCurrentHealth_bIsRagdoll (100 - 100) (spawnOn ENetRole.ROLE_Authority false) rfl
  have hc : FMath.Clamp (100 - 100) 0 100 = 0 := by
    norm_num [FMath.Clamp, FMath.Max, FMath.Min]
  rw [s3, hc] at hh hr
  refine ⟨?_, ?_, ?_⟩
  · exact hf.1.trans s1
  · simpa [killedAuthority, TakeDamage, s4] using hh
  · simpa [killedAuthority, TakeDamage, s4, s7] using hr

/-- C11 fails on the code: on the authority that is not locally controlled, killed by a hundred
damage, the handler of the remote call and the direct `StartRagdoll` both set `bIsRagdoll` and
leave the same replicated fields, but only the direct call runs `OnRep_IsRagdoll`: after the remote
call the mesh is not simulating physics and keeps its collision mode, after the direct call it
simulates physics with collision mode `QueryAndPhysics`.  The physics and collision states
differ, also from the spawn state. -/
theorem ServerStartRagdoll_Implementation_skips_effect :
    (killedAuthority false).LocalRole = ENetRole.ROLE_Authority ∧
    ReplicatedFields (ServerStartRagdoll_Implementation (killedAuthority false))
      = ReplicatedFields (StartRagdoll (killedAuthority false)) ∧
    (ServerStartRagdoll_Implementation (killedAuthority false)).bIsRagdoll = true ∧
    (ServerStartRagdoll_Implementation (killedAuthority false)).Mesh.map
      (fun m => (m.CollisionEnabled, m.bSimulatePhysics, m.bRigidBodiesAwake))
      = some (ECollisionEnabled.QueryOnly, false, false) ∧
    (StartRagdoll (killedAuthority false)).Mesh.map
      (fun m => (m.CollisionEnabled, m.bSimulatePhysics, m.bRigidBodiesAwake))
      = some (ECollisionEnabled.QueryAndPhysics, true, true) ∧
    PhysicsCollisionState (ServerStartRagdoll_Implementation (killedAuthority false))
      ≠ PhysicsCollisionState (StartRagdoll (killedAuthority false)) ∧
    PhysicsCollisionState
        (ServerStartRagdoll_Implementation (spawnOn ENetRole.ROLE_Authority false))
      ≠ PhysicsCollisionState (StartRagdoll (spawnOn ENetRole.ROLE_Authority false)) := by
  obtain ⟨k1, _, _⟩ := killedAuthority_fields
  have hfields : ReplicatedFields (ServerStartRagdoll_Implementation (killedAuthority false))
      = ReplicatedFields (StartRagdoll (killedAuthority false)) := by
    obtain ⟨_, _, _, f4, _, f6, _⟩ := StartRagdoll_frame (killedAuthority false)
    have fr := StartRagdoll_bIsRagdoll (killedAuthority false)
    rw [if_pos k1] at fr
    simp only [ReplicatedFields, ServerStartRagdoll_Implementation, f4, f6, fr]
  have hremote : (ServerStartRagdoll_Implementation (killedAuthority false)).Mesh.map
      (fun m => (m.CollisionEnabled, m.bSimulatePhysics, m.bRigidBodiesAwake))
      = some (ECollisionEnabled.QueryOnly, false, false) := by
    simp [ServerStartRagdoll_Implementation, killedAuthority, DisableCharacterCollision,
      TakeDamage, SetCurrentHealth, spawnOn, AIpvMulti2Character, OnHealthUpdate,
      OnHealthUpdate_Implementation, FMath.Clamp, FMath.Max, FMath.Min, HideUI,
      AddOnScreenDebugMessage, DisableInput, defaultMesh, defaultMovement,
      USkeletalMeshComponent.SetCollisionResponseToAllChannels,
      USkeletalMeshComponent.SetCollisionResponseToChannel]
  have hdirect : (StartRagdoll (killedAuthority false)).Mesh.map
      (fun m => (m.CollisionEnabled, m.bSimulatePhysics, m.bRigidBodiesAwake))
      = some (ECollisionEnabled.QueryAndPhysics, true, true) := by
    simp [StartRagdoll, OnRep_IsRagdoll, killedAuthority, DisableCharacterCollision,
      TakeDamage, SetCurrentHealth, spawnOn, AIpvMulti2Character, OnHealthUpdate,
      OnHealthUpdate_Implementation, FMath.Clamp, FMath.Max, FMath.Min, HideUI,
      AddOnScreenDebugMessage, DisableInput, defaultMesh, defaultMovement,
      USkeletalMeshComponent.SetCollisionEnabled, USkeletalMeshComponent.SetSimulatePhysics,
      USkeletalMeshComponent.SetAllBodiesSimulatePhysics,
      USkeletalMeshComponent.WakeAllRigidBodies,
      USkeletalMeshComponent.SetCollisionResponseToAllChannels,
      USkeletalMeshComponent.SetCollisionResponseToChannel]
  refine ⟨k1, hfields, rfl, hremote, hdirect, ?_, ?_⟩
  · intro h
    have h2 := congrArg (fun p => p.2.1.map (fun q => q.2.2)) h
    have e1 : (ServerStartRagdoll_Implementation (killedAuthority false)).Mesh.map
        (fun m => m.bSimulatePhysics) = some false := by
      have := congrArg (Option.map (fun q => q.2.1)) hremote
      simpa [Option.map_map, Function.comp] using this
    have e2 : (StartRagdoll (killedAuthority false)).Mesh.map
        (fun m => m.bSimulatePhysics) = some true := by
      have := congrArg (Option.map (fun q => q.2.1)) hdirect
      simpa [Option.map_map, Function.comp] using this
    simp only [PhysicsCollisionState, Option.map_map, Function.comp_def] at h2
    rw [e1, e2] at h2
    cases h2
  · intro h
    have h2 := congrArg (fun p => p.1.1) h
    cases h2

/-- C12: on every instance, authority or observer, locally controlled or not, and for every health
value, `OnHealthUpdate` keeps `CurrentHealth`, and a second run right after the first leaves the
replicated fields, the input flag, the physics and collision state, the three components and
`bReplicates` as the first run left them. -/
theorem OnHealthUpdate_idempotent (s : Character) :
    (OnHealthUpdate s).CurrentHealth = s.CurrentHealth ∧
    ReplicatedFields (OnHealthUpdate (OnHealthUpdate s)) = ReplicatedFields (OnHealthUpdate s) ∧
    InputCollisionPhysicsState (OnHealthUpdate (OnHealthUpdate s))
      = InputCollisionPhysicsState (OnHealthUpdate s) ∧
    (OnHealthUpdate (OnHealthUpdate s)).Capsule = (OnHealthUpdate s).Capsule ∧
    (OnHealthUpdate (OnHealthUpdate s)).Mesh = (OnHealthUpdate s).Mesh ∧
    (OnHealthUpdate (OnHealthUpdate s)).Movement = (OnHealthUpdate s).Movement ∧
    (OnHealthUpdate (OnHealthUpdate s)).bReplicates = (OnHealthUpdate s).bReplicates := by
  have h := OnHealthUpdate_twice s
  have h1 := congrArg ReplicatedFields h
  have h2 := congrArg InputCollisionPhysicsState h
  have h3 := congrArg Character.Capsule h
  have h4 := congrArg Character.Mesh h
  have h5 := congrArg Character.Movement h
  have h6 := congrArg Character.bReplicates h
  exact ⟨(OnHealthUpdate_frame s).2.2.2.1, h1, h2, h3, h4, h5, h6⟩

end IpvMulti2
